import Mathlib

/-
  Verification of the Swiftier boundary contract (EasyTierCore.h).

  The repository ships only the C boundary header
  `src/EasyTierCore/include/EasyTierCore.h`; the implementation behind the
  declared entry points is not part of the source tree.  The definitions
  below therefore model the InstanceManager lifecycle state machine, the
  ErrorChannel, the CallbackRegistry and the boundary entry points from the
  specification (sections 2-7), keeping the entry-point names of the header.
  Concurrency is modelled by its linearization: the spec (section 5) demands
  that all transitions are atomic and linearizable, so a set of concurrent
  calls behaves as one of its serialization orders.
-/

namespace Swiftier

/-- Modelled from the spec: lifecycle states of the singleton
InstanceManager, section 4.2 (the implementation behind the header is not in
the source tree). -/
inductive LifecycleState where
  | uninitialized
  | running
  | stopped
deriving DecidableEq, Repr

/-- Modelled from the spec: result kinds of the boundary entry points,
sections 6 and 7.  `ok` is the success code. -/
inductive ResultCode where
  | ok
  | configError
  | alreadyRunning
  | notRunning
  | alreadyInitialized
  | invalidDescriptor
  | invalidCallback
  | noError
deriving DecidableEq, Repr

/-- Modelled from the spec: the integer result convention of section 6
(`0` = success, nonzero = failure kind; the concrete nonzero values are not
fixed by the spec). -/
def ResultCode.code : ResultCode → Int
  | .ok => 0
  | .configError => 1
  | .alreadyRunning => 2
  | .notRunning => 3
  | .alreadyInitialized => 4
  | .invalidDescriptor => 5
  | .invalidCallback => 6
  | .noError => 7

/-- Modelled from the spec: one configured engine Instance, section 3 —
configuration blob plus an optional adopted DeviceHandle.  The background
execution context and snapshot machinery belong to the external engine. -/
structure Instance where
  cfg : String
  dev : Option Int
deriving DecidableEq, Repr

/-- Modelled from the spec: the running-info serialization of an Instance.
Its schema is owned by the external engine collaborator (section 6); the
core only moves it opaquely, so its content is modelled as an opaque
nonempty string derived from the instance. -/
def Instance.runningInfoJson (inst : Instance) : String :=
  "running-info for config: " ++ inst.cfg

/-- Modelled from the spec: the singleton InstanceManager state, section 4.2.
`instances` is the set of live Instances, kept as a list so that the
singleton invariant (at most one Instance exists, section 3) is a theorem
rather than a typing artifact.  `tunFd` is the adopted descriptor. -/
structure Manager where
  state : LifecycleState
  instances : List Instance
  tunFd : Option Int
deriving DecidableEq, Repr

/-- Modelled from the spec: the whole process-wide observable state —
the InstanceManager, the ErrorChannel (a single optional text value,
section 4.5) and the CallbackRegistry (at most one notifier per event kind,
section 4.3; a notifier reference is modelled as `Option Nat`, `none` being
a structurally invalid reference). -/
structure GlobalState where
  mgr : Manager
  errChan : Option String
  stopCb : Option Nat
  infoCb : Option Nat
deriving DecidableEq, Repr

/-- Modelled from the spec: the manager before any call — no instance, no
adopted descriptor, state `Uninitialized`. -/
def initialManager : Manager :=
  { state := .uninitialized, instances := [], tunFd := none }

/-- Modelled from the spec: the process state before any boundary call —
empty ErrorChannel, no registered notifiers. -/
def initialState : GlobalState :=
  { mgr := initialManager, errChan := none, stopCb := none, infoCb := none }

/-- Modelled from the spec: recording a failure description into the
ErrorChannel (section 2: the channel captures the most recent failure of any
operation, independent of per-call error output; it is overwritten on each
failing operation). -/
def recordFailure (g : GlobalState) (msg : String) : GlobalState :=
  { g with errChan := some msg }

/-- Modelled from the spec: `set_tun_fd` (header line 23), the
`set_device(fd)` transition of section 4.2 — valid only from
`Uninitialized`; fails with `AlreadyRunning` while an instance is active
(the state machine is not `Uninitialized`); validates the descriptor
(`InvalidDescriptor`, section 7). -/
def set_tun_fd (fd : Int) (g : GlobalState) : ResultCode × GlobalState :=
  if g.mgr.state = .uninitialized then
    if 0 ≤ fd then
      (.ok, { g with mgr := { g.mgr with tunFd := some fd } })
    else
      (.invalidDescriptor, recordFailure g "invalid tun descriptor")
  else
    (.alreadyRunning,
      recordFailure g "cannot change descriptor: instance already active")

/-- Modelled from the spec: `run_network_instance` (header line 29), the
`start` transition of section 4.2 — fails with `AlreadyRunning` from
`Running` without mutation; parses the configuration text (the parser is the
external collaborator, passed as the parameter `parse`), failing with
`ConfigError` without mutating state if malformed; on success creates the
Instance (consuming the adopted descriptor) and transitions to `Running`. -/
def run_network_instance (parse : String → Bool) (cfg : String)
    (g : GlobalState) : ResultCode × GlobalState :=
  if g.mgr.state = .running then
    (.alreadyRunning, recordFailure g "a network instance is already running")
  else if parse cfg then
    (.ok, { g with
            mgr := { state := .running,
                     instances := { cfg := cfg, dev := g.mgr.tunFd }
                                    :: g.mgr.instances,
                     tunFd := g.mgr.tunFd } })
  else
    (.configError, recordFailure g "failed to parse network config")

/-- Modelled from the spec: `stop_network_instance` (header line 32), the
`stop` transition of section 4.2 — valid from `Running`: releases the
Instance, invalidates the DeviceHandle (section 3) and transitions to
`Stopped`; from any other state fails with `NotRunning` and is a no-op on
the manager.  The header declares no per-call error output, so the failure
is recorded only in the ErrorChannel (section 7). -/
def stop_network_instance (g : GlobalState) : ResultCode × GlobalState :=
  if g.mgr.state = .running then
    (.ok, { g with
            mgr := { state := .stopped,
                     instances := g.mgr.instances.tail,
                     tunFd := none } })
  else
    (.notRunning, recordFailure g "no network instance is running")

/-- Modelled from the spec: `register_stop_callback` (header line 38),
section 4.3 — stores the notifier, replacing any prior one; fails with
`InvalidCallback` on a structurally invalid reference, leaving the prior
notifier in place. -/
def register_stop_callback (cb : Option Nat) (g : GlobalState) :
    ResultCode × GlobalState :=
  match cb with
  | none => (.invalidCallback, recordFailure g "invalid stop callback reference")
  | some f => (.ok, { g with stopCb := some f })

/-- Modelled from the spec: `register_running_info_callback` (header line
39), section 4.3 — same contract as `register_stop_callback` for the
running-info event kind. -/
def register_running_info_callback (cb : Option Nat) (g : GlobalState) :
    ResultCode × GlobalState :=
  match cb with
  | none =>
      (.invalidCallback, recordFailure g "invalid running info callback reference")
  | some f => (.ok, { g with infoCb := some f })

/-- Modelled from the spec: `get_running_info` (header line 43), the
`snapshot()` operation of section 4.2 — valid only from `Running`, where it
produces the current running-info serialization; fails with `NotRunning`
otherwise. -/
def get_running_info (g : GlobalState) :
    (ResultCode × Option String) × GlobalState :=
  if g.mgr.state = .running then
    ((.ok, g.mgr.instances.head?.map Instance.runningInfoJson), g)
  else
    ((.notRunning, none), recordFailure g "no network instance is running")

/-- Modelled from the spec: `get_latest_error_msg` (header line 47),
section 4.5 — returns the most recent failure description recorded in the
ErrorChannel, or fails with `NoError` if none has ever been recorded.  The
channel is read-only to callers (section 3): reading never mutates it. -/
def get_latest_error_msg (g : GlobalState) :
    (ResultCode × Option String) × GlobalState :=
  match g.errChan with
  | some msg => ((.ok, some msg), g)
  | none => ((.noError, none), g)

/-- Modelled from the spec: one boundary-API call, section 6 (the lifecycle
and observation entry points of the header; `init_logger` and `free_string`
are external services out of the core state machine, sections 4.4 and 4.1). -/
inductive Op where
  | start (cfg : String)
  | stop
  | setTunFd (fd : Int)
  | regStopCb (cb : Option Nat)
  | regInfoCb (cb : Option Nat)
  | snapshot
  | readError
deriving DecidableEq, Repr

/-- Modelled from the spec: execute one boundary call, returning its result
code and the successor process state. -/
def step (parse : String → Bool) (g : GlobalState) : Op → ResultCode × GlobalState
  | .start cfg => run_network_instance parse cfg g
  | .stop => stop_network_instance g
  | .setTunFd fd => set_tun_fd fd g
  | .regStopCb cb => register_stop_callback cb g
  | .regInfoCb cb => register_running_info_callback cb g
  | .snapshot =>
      let r := get_running_info g
      (r.1.1, r.2)
  | .readError =>
      let r := get_latest_error_msg g
      (r.1.1, r.2)

/-- Modelled from the spec: execute a sequence of boundary calls left to
right, collecting the result codes. -/
def runOps (parse : String → Bool) (g : GlobalState) :
    List Op → List ResultCode × GlobalState
  | [] => ([], g)
  | op :: ops =>
      let r := step parse g op
      let rest := runOps parse r.2 ops
      (r.1 :: rest.1, rest.2)

/-- The process state after a sequence of boundary calls from the initial
state. -/
def stateAfter (parse : String → Bool) (ops : List Op) : GlobalState :=
  (runOps parse initialState ops).2

/-- The result codes of a sequence of boundary calls from the initial
state. -/
def resultsOf (parse : String → Bool) (ops : List Op) : List ResultCode :=
  (runOps parse initialState ops).1

/-- A start/stop call, the alphabet of the section 4.2 lifecycle table as
exercised by `run_network_instance` / `stop_network_instance` sequences. -/
inductive SSOp where
  | start (cfg : String)
  | stop
deriving DecidableEq, Repr

/-- Embed a start/stop call into the full boundary alphabet. -/
def SSOp.toOp : SSOp → Op
  | .start cfg => Op.start cfg
  | .stop => Op.stop

/-- Modelled from the spec: the section 4.2 transition TABLE read directly
from the spec text, to be compared against the modelled implementation:
`start` from `Running` leaves the state unchanged; from `Uninitialized` or
`Stopped` it moves to `Running` when the configuration parses and leaves the
state unchanged otherwise; `stop` moves `Running` to `Stopped` and leaves
any other state unchanged. -/
def specTransition (parse : String → Bool) (s : LifecycleState) :
    SSOp → LifecycleState
  | .start cfg =>
      match s with
      | .running => .running
      | s' => if parse cfg then .running else s'
  | .stop =>
      match s with
      | .running => .stopped
      | s' => s'

/-- The singleton invariant of section 3, phrased over the live-instance
list: while `Running` exactly one Instance is live, otherwise none. -/
def singletonInv (m : Manager) : Prop :=
  (m.state = .running → m.instances.length = 1) ∧
  (m.state ≠ .running → m.instances = [])

theorem step_ss_state (parse : String → Bool) (g : GlobalState) (o : SSOp) :
    (step parse g o.toOp).2.mgr.state = specTransition parse g.mgr.state o := by
  cases o with
  | start cfg =>
      cases hs : g.mgr.state <;>
        cases hp : parse cfg <;>
          simp [step, SSOp.toOp, run_network_instance, specTransition,
                recordFailure, hs, hp]
  | stop =>
      cases hs : g.mgr.state <;>
        simp [step, SSOp.toOp, stop_network_instance, specTransition,
              recordFailure, hs]

theorem runOps_ss_state (parse : String → Bool) (ops : List SSOp) :
    ∀ g : GlobalState,
      (runOps parse g (ops.map SSOp.toOp)).2.mgr.state
        = ops.foldl (specTransition parse) g.mgr.state := by
  induction ops with
  | nil => intro g; rfl
  | cons o ops ih =>
      intro g
      simp only [List.map_cons, runOps, List.foldl_cons]
      rw [ih, step_ss_state]

/-- C1: the manager's observable lifecycle state after any finite sequence
of `run_network_instance` / `stop_network_instance` calls equals the fold of
the section 4.2 transition table over the sequence left to right, and the
concrete sequence start(valid), start(valid), stop, stop returns the codes
success (0), AlreadyRunning, success (0), NotRunning in that order. -/
theorem C1_lifecycle_matches_spec_table (parse : String → Bool)
    (ops : List SSOp) (vcfg : String) (hv : parse vcfg = true) :
    (runOps parse initialState (ops.map SSOp.toOp)).2.mgr.state
      = ops.foldl (specTransition parse) LifecycleState.uninitialized
    ∧ resultsOf parse [Op.start vcfg, Op.start vcfg, Op.stop, Op.stop]
        = [.ok, .alreadyRunning, .ok, .notRunning]
    ∧ ResultCode.code .ok = 0
    ∧ ResultCode.code .alreadyRunning ≠ 0
    ∧ ResultCode.code .notRunning ≠ 0 := by
  refine ⟨?_, ?_, rfl, by decide, by decide⟩
  · have h := runOps_ss_state parse ops initialState
    simpa [initialState, initialManager] using h
  · simp [resultsOf, runOps, step, run_network_instance, stop_network_instance,
          initialState, initialManager, recordFailure, hv]

/-- Witness for C1 at a concrete parser and concrete call sequence. -/
theorem C1_lifecycle_matches_spec_table_witness :
    (runOps (fun s => s == "cfg") initialState
        ([SSOp.start "cfg", SSOp.stop].map SSOp.toOp)).2.mgr.state
      = [SSOp.start "cfg", SSOp.stop].foldl
          (specTransition (fun s => s == "cfg")) LifecycleState.uninitialized
    ∧ resultsOf (fun s => s == "cfg")
        [Op.start "cfg", Op.start "cfg", Op.stop, Op.stop]
        = [.ok, .alreadyRunning, .ok, .notRunning]
    ∧ ResultCode.code .ok = 0
    ∧ ResultCode.code .alreadyRunning ≠ 0
    ∧ ResultCode.code .notRunning ≠ 0 :=
  C1_lifecycle_matches_spec_table (fun s => s == "cfg")
    [SSOp.start "cfg", SSOp.stop] "cfg" (by decide)

/-- C2: starting while already `Running` fails with `AlreadyRunning` and
performs no mutation of the manager — the active instance is not replaced
and the lifecycle state, instance list and descriptor are unchanged. -/
theorem C2_start_while_running_is_pure_failure (parse : String → Bool)
    (cfg : String) (g : GlobalState) (h : g.mgr.state = .running) :
    (run_network_instance parse cfg g).1 = .alreadyRunning
    ∧ (run_network_instance parse cfg g).2.mgr = g.mgr := by
  simp [run_network_instance, recordFailure, h]

/-- Witness for C2 at a concrete running state. -/
theorem C2_start_while_running_is_pure_failure_witness :
    (run_network_instance (fun _ => true) "c"
        { mgr := { state := .running,
                   instances := [{ cfg := "c", dev := none }], tunFd := none },
          errChan := none, stopCb := none, infoCb := none }).1 = .alreadyRunning
    ∧ (run_network_instance (fun _ => true) "c"
        { mgr := { state := .running,
                   instances := [{ cfg := "c", dev := none }], tunFd := none },
          errChan := none, stopCb := none, infoCb := none }).2.mgr
      = { state := .running,
          instances := [{ cfg := "c", dev := none }], tunFd := none } :=
  C2_start_while_running_is_pure_failure (fun _ => true) "c" _ rfl

/-- C3: stopping while not `Running` (that is, `Uninitialized` or `Stopped`)
fails with `NotRunning` and leaves the manager unchanged; stopping while
`Running` succeeds and transitions the manager to `Stopped`. -/
theorem C3_stop_semantics (g : GlobalState) :
    (g.mgr.state ≠ .running →
      (stop_network_instance g).1 = .notRunning
      ∧ (stop_network_instance g).2.mgr = g.mgr)
    ∧ (g.mgr.state = .running →
      (stop_network_instance g).1 = .ok
      ∧ (stop_network_instance g).2.mgr.state = .stopped) := by
  constructor
  · intro h
    simp [stop_network_instance, recordFailure, h]
  · intro h
    simp [stop_network_instance, h]

/-- Witness for C3: the no-op failure at the initial (`Uninitialized`) state
and the successful transition at a concrete running state. -/
theorem C3_stop_semantics_witness :
    ((stop_network_instance initialState).1 = .notRunning
      ∧ (stop_network_instance initialState).2.mgr = initialState.mgr)
    ∧ ((stop_network_instance
          { mgr := { state := .running,
                     instances := [{ cfg := "c", dev := none }], tunFd := none },
            errChan := none, stopCb := none, infoCb := none }).1 = .ok
      ∧ (stop_network_instance
          { mgr := { state := .running,
                     instances := [{ cfg := "c", dev := none }], tunFd := none },
            errChan := none, stopCb := none, infoCb := none }).2.mgr.state
        = .stopped) :=
  ⟨(C3_stop_semantics initialState).1 (by decide),
   (C3_stop_semantics _).2 rfl⟩

/-- C4: on malformed configuration text the start call never mutates the
manager, and when the manager is not `Running` (so that the parse is what
decides the call) it returns `ConfigError`; in particular from
`Uninitialized` the state remains `Uninitialized`.  Afterwards
`get_latest_error_msg` succeeds with a nonempty failure description instead
of failing with `NoError`. -/
theorem C4_malformed_config (parse : String → Bool) (cfg : String)
    (g : GlobalState) (h : parse cfg = false) :
    (run_network_instance parse cfg g).2.mgr = g.mgr
    ∧ (g.mgr.state ≠ .running →
        (run_network_instance parse cfg g).1 = .configError)
    ∧ ∃ m, (get_latest_error_msg (run_network_instance parse cfg g).2).1
            = (.ok, some m) ∧ m ≠ "" := by
  by_cases hs : g.mgr.state = .running
  · refine ⟨?_, fun hne => absurd hs hne, ?_⟩
    · simp [run_network_instance, recordFailure, hs]
    · refine ⟨"a network instance is already running", ?_, by decide⟩
      simp [run_network_instance, recordFailure, hs, get_latest_error_msg]
  · refine ⟨?_, fun _ => ?_, ?_⟩
    · simp [run_network_instance, recordFailure, hs, h]
    · simp [run_network_instance, recordFailure, hs, h]
    · refine ⟨"failed to parse network config", ?_, by decide⟩
      simp [run_network_instance, recordFailure, hs, h, get_latest_error_msg]

/-- Witness for C4: the concrete scenario of section 8 — an unparsable text
from the initial `Uninitialized` state. -/
theorem C4_malformed_config_witness :
    (run_network_instance (fun s => s == "cfg") "invalid_toml"
        initialState).2.mgr = initialState.mgr
    ∧ (run_network_instance (fun s => s == "cfg") "invalid_toml"
        initialState).1 = .configError
    ∧ ∃ m, (get_latest_error_msg
              (run_network_instance (fun s => s == "cfg") "invalid_toml"
                initialState).2).1 = (.ok, some m) ∧ m ≠ "" :=
  ⟨(C4_malformed_config (fun s => s == "cfg") "invalid_toml" initialState
      (by decide)).1,
   (C4_malformed_config (fun s => s == "cfg") "invalid_toml" initialState
      (by decide)).2.1 (by decide),
   (C4_malformed_config (fun s => s == "cfg") "invalid_toml" initialState
      (by decide)).2.2⟩

theorem singletonInv_initial : singletonInv initialManager := by
  simp [singletonInv, initialManager]

theorem singletonInv_step (parse : String → Bool) (g : GlobalState) (op : Op)
    (h : singletonInv g.mgr) : singletonInv (step parse g op).2.mgr := by
  obtain ⟨h1, h2⟩ := h
  cases op with
  | start cfg =>
      by_cases hs : g.mgr.state = .running
      · simpa [step, run_network_instance, recordFailure, hs, singletonInv]
          using And.intro h1 h2
      · cases hp : parse cfg
        · simpa [step, run_network_instance, recordFailure, hs, hp,
                 singletonInv] using And.intro h1 h2
        · simp [step, run_network_instance, recordFailure, hs, hp,
                singletonInv, h2 hs]
  | stop =>
      by_cases hs : g.mgr.state = .running
      · have hlen : g.mgr.instances.length = 1 := h1 hs
        have htail : g.mgr.instances.tail = [] :=
          List.eq_nil_of_length_eq_zero (by simp [List.length_tail, hlen])
        simp [step, stop_network_instance, hs, singletonInv, htail]
      · simpa [step, stop_network_instance, recordFailure, hs, singletonInv]
          using And.intro h1 h2
  | setTunFd fd =>
      by_cases hs : g.mgr.state = .uninitialized
      · by_cases hf : (0 : Int) ≤ fd
        · simpa [step, set_tun_fd, hs, hf, singletonInv]
            using And.intro h1 h2
        · simpa [step, set_tun_fd, recordFailure, hs, hf, singletonInv]
            using And.intro h1 h2
      · simpa [step, set_tun_fd, recordFailure, hs, singletonInv]
          using And.intro h1 h2
  | regStopCb cb =>
      cases cb <;>
        simpa [step, register_stop_callback, recordFailure, singletonInv]
          using And.intro h1 h2
  | regInfoCb cb =>
      cases cb <;>
        simpa [step, register_running_info_callback, recordFailure,
               singletonInv] using And.intro h1 h2
  | snapshot =>
      by_cases hs : g.mgr.state = .running <;>
        simpa [step, get_running_info, recordFailure, hs, singletonInv]
          using And.intro h1 h2
  | readError =>
      cases hc : g.errChan <;>
        simpa [step, get_latest_error_msg, hc, singletonInv]
          using And.intro h1 h2

theorem singletonInv_runOps (parse : String → Bool) (ops : List Op) :
    ∀ g : GlobalState, singletonInv g.mgr →
      singletonInv (runOps parse g ops).2.mgr := by
  induction ops with
  | nil => intro g h; exact h
  | cons op ops ih =>
      intro g h
      simp only [runOps]
      exact ih _ (singletonInv_step parse g op h)

theorem singletonInv_stateAfter (parse : String → Bool) (ops : List Op) :
    singletonInv (stateAfter parse ops).mgr :=
  singletonInv_runOps parse ops initialState singletonInv_initial

/-- C5: the snapshot operation `get_running_info` succeeds exactly in state
`Running`, where it produces a running-info serialization; in every other
state it fails with `NotRunning`; and a successful stop immediately followed
by a snapshot always fails with `NotRunning`. -/
theorem C5_snapshot_iff_running (parse : String → Bool) (ops : List Op)
    (g : GlobalState) :
    ((get_running_info (stateAfter parse ops)).1.1 = .ok
        ↔ (stateAfter parse ops).mgr.state = .running)
    ∧ ((stateAfter parse ops).mgr.state ≠ .running →
        (get_running_info (stateAfter parse ops)).1.1 = .notRunning)
    ∧ ((stateAfter parse ops).mgr.state = .running →
        ∃ s, (get_running_info (stateAfter parse ops)).1.2 = some s)
    ∧ (g.mgr.state = .running →
        (stop_network_instance g).1 = .ok
        ∧ (get_running_info (stop_network_instance g).2).1.1 = .notRunning) := by
  refine ⟨?_, ?_, ?_, ?_⟩
  · by_cases hs : (stateAfter parse ops).mgr.state = .running <;>
      simp [get_running_info, recordFailure, hs]
  · intro hs
    simp [get_running_info, recordFailure, hs]
  · intro hs
    obtain ⟨h1, _⟩ := singletonInv_stateAfter parse ops
    have hlen := h1 hs
    cases hi : (stateAfter parse ops).mgr.instances with
    | nil => simp [hi] at hlen
    | cons a l => exact ⟨a.runningInfoJson, by simp [get_running_info, hs, hi]⟩
  · intro hs
    constructor
    · simp [stop_network_instance, hs]
    · simp [stop_network_instance, get_running_info, recordFailure, hs]

/-- Witness for C5 at a concrete parser, a concrete call sequence reaching
`Running`, and a concrete running state for the stop-then-snapshot part. -/
theorem C5_snapshot_iff_running_witness :
    (stateAfter (fun s => s == "cfg") [Op.start "cfg"]).mgr.state = .running
    ∧ (get_running_info
        (stateAfter (fun s => s == "cfg") [Op.start "cfg"])).1.1 = .ok
    ∧ (∃ s, (get_running_info
        (stateAfter (fun s => s == "cfg") [Op.start "cfg"])).1.2 = some s)
    ∧ ((stop_network_instance
          { mgr := { state := .running,
                     instances := [{ cfg := "c", dev := none }], tunFd := none },
            errChan := none, stopCb := none, infoCb := none }).1 = .ok
      ∧ (get_running_info
          (stop_network_instance
            { mgr := { state := .running,
                       instances := [{ cfg := "c", dev := none }],
                       tunFd := none },
              errChan := none, stopCb := none, infoCb := none }).2).1.1
        = .notRunning) :=
  ⟨by decide,
   (C5_snapshot_iff_running (fun s => s == "cfg") [Op.start "cfg"]
      initialState).1.mpr (by decide),
   (C5_snapshot_iff_running (fun s => s == "cfg") [Op.start "cfg"]
      initialState).2.2.1 (by decide),
   (C5_snapshot_iff_running (fun s => s == "cfg") [Op.start "cfg"] _).2.2.2 rfl⟩

/-- C6: descriptor adoption succeeds only from `Uninitialized`; while an
instance is active (`Running`) it fails with `AlreadyRunning` and leaves the
manager — in particular the stored descriptor — unchanged. -/
theorem C6_set_tun_fd_guard (fd : Int) (g : GlobalState) :
    ((set_tun_fd fd g).1 = .ok → g.mgr.state = .uninitialized)
    ∧ (g.mgr.state = .running →
        (set_tun_fd fd g).1 = .alreadyRunning
        ∧ (set_tun_fd fd g).2.mgr = g.mgr) := by
  constructor
  · intro h
    by_cases hs : g.mgr.state = .uninitialized
    · exact hs
    · simp [set_tun_fd, recordFailure, hs] at h
  · intro hs
    have hne : g.mgr.state ≠ .uninitialized := by simp [hs]
    simp [set_tun_fd, recordFailure, hne]

/-- Witness for C6: adoption from the initial state succeeds (so the success
hypothesis is dischargeable) and a concrete running state rejects the call
without mutation. -/
theorem C6_set_tun_fd_guard_witness :
    initialState.mgr.state = .uninitialized
    ∧ ((set_tun_fd 7
          { mgr := { state := .running,
                     instances := [{ cfg := "c", dev := none }], tunFd := none },
            errChan := none, stopCb := none, infoCb := none }).1
        = .alreadyRunning
      ∧ (set_tun_fd 7
          { mgr := { state := .running,
                     instances := [{ cfg := "c", dev := none }], tunFd := none },
            errChan := none, stopCb := none, infoCb := none }).2.mgr
        = { state := .running,
            instances := [{ cfg := "c", dev := none }], tunFd := none }) :=
  ⟨(C6_set_tun_fd_guard 7 initialState).1 (by decide),
   (C6_set_tun_fd_guard 7 _).2 rfl⟩

/-- C7: after every sequence of boundary calls at most one Instance is live
(the singleton invariant is preserved by every operation), and whenever the
reached state is `Stopped` a fresh start with parsable configuration
succeeds and re-enters `Running` — no reachable state forbids restart. -/
theorem C7_singleton_and_restart (parse : String → Bool) (ops : List Op)
    (cfg : String) :
    (stateAfter parse ops).mgr.instances.length ≤ 1
    ∧ ((stateAfter parse ops).mgr.state = .stopped → parse cfg = true →
        (run_network_instance parse cfg (stateAfter parse ops)).1 = .ok
        ∧ (run_network_instance parse cfg (stateAfter parse ops)).2.mgr.state
            = .running) := by
  obtain ⟨h1, h2⟩ := singletonInv_stateAfter parse ops
  constructor
  · by_cases hs : (stateAfter parse ops).mgr.state = .running
    · simp [h1 hs]
    · simp [h2 hs]
  · intro hs hv
    have hne : (stateAfter parse ops).mgr.state ≠ .running := by simp [hs]
    constructor <;> simp [run_network_instance, hne, hv]

/-- Witness for C7: a concrete sequence that starts and then stops an
instance, reaching `Stopped`, from which a fresh start re-enters
`Running`. -/
theorem C7_singleton_and_restart_witness :
    (stateAfter (fun s => s == "cfg") [Op.start "cfg", Op.stop]).mgr.instances.length ≤ 1
    ∧ ((run_network_instance (fun s => s == "cfg") "cfg"
          (stateAfter (fun s => s == "cfg") [Op.start "cfg", Op.stop])).1 = .ok
      ∧ (run_network_instance (fun s => s == "cfg") "cfg"
          (stateAfter (fun s => s == "cfg") [Op.start "cfg", Op.stop])).2.mgr.state
        = .running) :=
  ⟨(C7_singleton_and_restart (fun s => s == "cfg")
      [Op.start "cfg", Op.stop] "cfg").1,
   (C7_singleton_and_restart (fun s => s == "cfg")
      [Op.start "cfg", Op.stop] "cfg").2 (by decide) (by decide)⟩

theorem step_errChan_cases (parse : String → Bool) (g : GlobalState)
    (op : Op) :
    ((step parse g op).1 = .ok ∧ (step parse g op).2.errChan = g.errChan)
    ∨ ((step parse g op).1 = .noError ∧ g.errChan = none
        ∧ (step parse g op).2.errChan = none)
    ∨ ((step parse g op).1 ≠ .ok ∧ (step parse g op).1 ≠ .noError
        ∧ ∃ m, (step parse g op).2.errChan = some m) := by
  cases op with
  | start cfg =>
      by_cases hs : g.mgr.state = .running
      · exact Or.inr (Or.inr (by simp [step, run_network_instance,
          recordFailure, hs]))
      · cases hp : parse cfg
        · exact Or.inr (Or.inr (by simp [step, run_network_instance,
            recordFailure, hs, hp]))
        · exact Or.inl (by simp [step, run_network_instance, hs, hp])
  | stop =>
      by_cases hs : g.mgr.state = .running
      · exact Or.inl (by simp [step, stop_network_instance, hs])
      · exact Or.inr (Or.inr (by simp [step, stop_network_instance,
          recordFailure, hs]))
  | setTunFd fd =>
      by_cases hs : g.mgr.state = .uninitialized
      · by_cases hf : (0 : Int) ≤ fd
        · exact Or.inl (by simp [step, set_tun_fd, hs, hf])
        · exact Or.inr (Or.inr (by simp [step, set_tun_fd, recordFailure,
            hs, hf]))
      · exact Or.inr (Or.inr (by simp [step, set_tun_fd, recordFailure, hs]))
  | regStopCb cb =>
      cases cb with
      | none => exact Or.inr (Or.inr (by simp [step, register_stop_callback,
          recordFailure]))
      | some f => exact Or.inl (by simp [step, register_stop_callback])
  | regInfoCb cb =>
      cases cb with
      | none => exact Or.inr (Or.inr (by
          simp [step, register_running_info_callback, recordFailure]))
      | some f => exact Or.inl (by
          simp [step, register_running_info_callback])
  | snapshot =>
      by_cases hs : g.mgr.state = .running
      · exact Or.inl (by simp [step, get_running_info, hs])
      · exact Or.inr (Or.inr (by simp [step, get_running_info,
          recordFailure, hs]))
  | readError =>
      cases hc : g.errChan with
      | none => exact Or.inr (Or.inl (by simp [step, get_latest_error_msg, hc]))
      | some m => exact Or.inl (by simp [step, get_latest_error_msg, hc])

theorem errChan_some_persists (parse : String → Bool) (ops : List Op) :
    ∀ g : GlobalState, g.errChan ≠ none →
      (runOps parse g ops).2.errChan ≠ none := by
  induction ops with
  | nil => intro g h; exact h
  | cons op ops ih =>
      intro g h
      simp only [runOps]
      rcases step_errChan_cases parse g op with
        ⟨_, hch⟩ | ⟨_, hnone, _⟩ | ⟨_, _, m, hch⟩
      · exact ih _ (hch ▸ h)
      · exact absurd hnone h
      · exact ih _ (by simp [hch])

theorem errChan_none_iff_all_ok (parse : String → Bool) (ops : List Op) :
    ∀ g : GlobalState, g.errChan = none →
      ((runOps parse g ops).2.errChan = none ↔
        ∀ r ∈ (runOps parse g ops).1, r = ResultCode.ok ∨ r = ResultCode.noError) := by
  induction ops with
  | nil =>
      intro g hg
      simpa [runOps] using hg
  | cons op ops ih =>
      intro g hg
      simp only [runOps, List.mem_cons]
      rcases step_errChan_cases parse g op with
        ⟨hok, hch⟩ | ⟨hne, _, hch⟩ | ⟨h1, h2, m, hch⟩
      · have hrec := ih (step parse g op).2 (hch.trans hg)
        rw [hrec]
        constructor
        · intro hall r hr
          rcases hr with hr | hr
          · exact Or.inl (hr ▸ hok)
          · exact hall r hr
        · intro hall r hr
          exact hall r (Or.inr hr)
      · have hrec := ih (step parse g op).2 hch
        rw [hrec]
        constructor
        · intro hall r hr
          rcases hr with hr | hr
          · exact Or.inr (hr ▸ hne)
          · exact hall r hr
        · intro hall r hr
          exact hall r (Or.inr hr)
      · have hever : (runOps parse (step parse g op).2 ops).2.errChan ≠ none :=
          errChan_some_persists parse ops _ (by simp [hch])
        constructor
        · intro hnone
          exact absurd hnone hever
        · intro hall
          rcases hall (step parse g op).1 (Or.inl rfl) with hr | hr
          · exact absurd hr h1
          · exact absurd hr h2

/-- C8: `get_latest_error_msg` reads the process-wide ErrorChannel without
mutating any state; it returns the channel's current (most recently
recorded) failure description when one exists; it fails with `NoError`
exactly when the channel is empty, which over every call sequence from the
initial state holds exactly when no operation has ever recorded a failure;
and a step changes the channel only by a failing operation overwriting it
with its own description. -/
theorem C8_error_channel (parse : String → Bool) :
    (∀ g : GlobalState, (get_latest_error_msg g).2 = g)
    ∧ (∀ (g : GlobalState) (m : String), g.errChan = some m →
        (get_latest_error_msg g).1 = (.ok, some m))
    ∧ (∀ g : GlobalState,
        (get_latest_error_msg g).1.1 = .noError ↔ g.errChan = none)
    ∧ (∀ (g : GlobalState) (op : Op), (step parse g op).1 = .ok →
        (step parse g op).2.errChan = g.errChan)
    ∧ (∀ (g : GlobalState) (op : Op),
        (step parse g op).2.errChan ≠ g.errChan →
        (step parse g op).1 ≠ .ok
        ∧ ∃ m, (step parse g op).2.errChan = some m)
    ∧ (∀ ops : List Op,
        (get_latest_error_msg (stateAfter parse ops)).1.1 = .noError
          ↔ ∀ r ∈ resultsOf parse ops, r = ResultCode.ok ∨ r = ResultCode.noError) := by
  refine ⟨?_, ?_, ?_, ?_, ?_, ?_⟩
  · intro g
    cases hc : g.errChan <;> simp [get_latest_error_msg, hc]
  · intro g m hm
    simp [get_latest_error_msg, hm]
  · intro g
    cases hc : g.errChan <;> simp [get_latest_error_msg, hc]
  · intro g op hok
    rcases step_errChan_cases parse g op with
      ⟨_, hch⟩ | ⟨hne, _, _⟩ | ⟨h1, _, _⟩
    · exact hch
    · exact absurd hok (by simp [hne])
    · exact absurd hok h1
  · intro g op hch
    rcases step_errChan_cases parse g op with
      ⟨_, hc⟩ | ⟨_, h0, h1⟩ | ⟨h1, _, m, hc⟩
    · exact absurd hc hch
    · exact absurd (h1.trans h0.symm) hch
    · exact ⟨h1, m, hc⟩
  · intro ops
    have h := errChan_none_iff_all_ok parse ops initialState rfl
    cases hc : (stateAfter parse ops).errChan with
    | none =>
        refine iff_of_true ?_ (h.mp hc)
        simp [get_latest_error_msg, hc]
    | some m =>
        refine iff_of_false ?_ ?_
        · simp [get_latest_error_msg, hc]
        · intro hall
          have hnone : (stateAfter parse ops).errChan = none := h.mpr hall
          exact Option.noConfusion (hc.symm.trans hnone)

/-- Witness for C8 at a concrete parser, channel content, step and call
sequence. -/
theorem C8_error_channel_witness :
    ((get_latest_error_msg
        { mgr := initialManager, errChan := some "boom",
          stopCb := none, infoCb := none }).2
      = { mgr := initialManager, errChan := some "boom",
          stopCb := none, infoCb := none })
    ∧ (get_latest_error_msg
        { mgr := initialManager, errChan := some "boom",
          stopCb := none, infoCb := none }).1 = (.ok, some "boom")
    ∧ ((get_latest_error_msg initialState).1.1 = .noError ↔
        initialState.errChan = none)
    ∧ ((step (fun _ => true) initialState Op.stop).2.errChan
          ≠ initialState.errChan →
        (step (fun _ => true) initialState Op.stop).1 ≠ .ok
        ∧ ∃ m, (step (fun _ => true) initialState Op.stop).2.errChan = some m)
    ∧ ((get_latest_error_msg (stateAfter (fun _ => true) [Op.stop])).1.1
          = .noError
        ↔ ∀ r ∈ resultsOf (fun _ => true) [Op.stop],
            r = ResultCode.ok ∨ r = ResultCode.noError) :=
  ⟨(C8_error_channel (fun _ => true)).1 _,
   (C8_error_channel (fun _ => true)).2.1 _ "boom" rfl,
   (C8_error_channel (fun _ => true)).2.2.1 initialState,
   (C8_error_channel (fun _ => true)).2.2.2.2.1 initialState Op.stop,
   (C8_error_channel (fun _ => true)).2.2.2.2.2 [Op.stop]⟩

/-- C9: each callback registration stores the supplied notifier, replacing
any prior one for that event kind, and succeeds for every structurally
valid reference; on a structurally invalid reference it fails with
`InvalidCallback` and leaves the previously registered notifier (and the
other event kind's notifier) in place. -/
theorem C9_register_callbacks (g : GlobalState) (f : Nat) :
    ((register_stop_callback (some f) g).1 = .ok
      ∧ (register_stop_callback (some f) g).2.stopCb = some f
      ∧ (register_stop_callback (some f) g).2.infoCb = g.infoCb)
    ∧ ((register_stop_callback none g).1 = .invalidCallback
      ∧ (register_stop_callback none g).2.stopCb = g.stopCb
      ∧ (register_stop_callback none g).2.infoCb = g.infoCb)
    ∧ ((register_running_info_callback (some f) g).1 = .ok
      ∧ (register_running_info_callback (some f) g).2.infoCb = some f
      ∧ (register_running_info_callback (some f) g).2.stopCb = g.stopCb)
    ∧ ((register_running_info_callback none g).1 = .invalidCallback
      ∧ (register_running_info_callback none g).2.infoCb = g.infoCb
      ∧ (register_running_info_callback none g).2.stopCb = g.stopCb) := by
  simp [register_stop_callback, register_running_info_callback, recordFailure]

/-- C10: two start calls racing from any reachable non-`Running` state,
modelled by their linearization (the spec's section 5 atomicity makes the
two serialization orders coincide), yield exactly one success and one
`AlreadyRunning` failure, the failing call mutates nothing, and afterwards
exactly one `Running` instance exists. -/
theorem C10_concurrent_start_linearized (parse : String → Bool)
    (ops : List Op) (cfg : String) (hv : parse cfg = true)
    (hnr : (stateAfter parse ops).mgr.state ≠ .running) :
    (run_network_instance parse cfg (stateAfter parse ops)).1 = .ok
    ∧ (run_network_instance parse cfg
        (run_network_instance parse cfg (stateAfter parse ops)).2).1
        = .alreadyRunning
    ∧ (run_network_instance parse cfg
        (run_network_instance parse cfg (stateAfter parse ops)).2).2.mgr
        = (run_network_instance parse cfg (stateAfter parse ops)).2.mgr
    ∧ (run_network_instance parse cfg (stateAfter parse ops)).2.mgr.state
        = .running
    ∧ (run_network_instance parse cfg
        (stateAfter parse ops)).2.mgr.instances.length = 1 := by
  obtain ⟨_, h2⟩ := singletonInv_stateAfter parse ops
  have hempty : (stateAfter parse ops).mgr.instances = [] := h2 hnr
  refine ⟨?_, ?_, ?_, ?_, ?_⟩
  · simp [run_network_instance, hnr, hv]
  · simp [run_network_instance, hnr, hv, recordFailure]
  · simp [run_network_instance, hnr, hv, recordFailure]
  · simp [run_network_instance, hnr, hv]
  · simp [run_network_instance, hnr, hv, hempty]

/-- Witness for C10 at a concrete parser, reached state and configuration. -/
theorem C10_concurrent_start_linearized_witness :
    (run_network_instance (fun s => s == "cfg") "cfg"
        (stateAfter (fun s => s == "cfg") [Op.setTunFd 3])).1 = .ok
    ∧ (run_network_instance (fun s => s == "cfg") "cfg"
        (run_network_instance (fun s => s == "cfg") "cfg"
          (stateAfter (fun s => s == "cfg") [Op.setTunFd 3])).2).1
        = .alreadyRunning
    ∧ (run_network_instance (fun s => s == "cfg") "cfg"
        (run_network_instance (fun s => s == "cfg") "cfg"
          (stateAfter (fun s => s == "cfg") [Op.setTunFd 3])).2).2.mgr
        = (run_network_instance (fun s => s == "cfg") "cfg"
            (stateAfter (fun s => s == "cfg") [Op.setTunFd 3])).2.mgr
    ∧ (run_network_instance (fun s => s == "cfg") "cfg"
        (stateAfter (fun s => s == "cfg") [Op.setTunFd 3])).2.mgr.state
        = .running
    ∧ (run_network_instance (fun s => s == "cfg") "cfg"
        (stateAfter (fun s => s == "cfg") [Op.setTunFd 3])).2.mgr.instances.length
        = 1 :=
  C10_concurrent_start_linearized (fun s => s == "cfg") [Op.setTunFd 3] "cfg"
    (by decide) (by decide)

end Swiftier
